import Mathlib

deriving instance DecidableEq for Except

/-!
Shallow embedding of the BLS labor-market dashboard repository
(`scripts/build_dataset.py`, `scripts/fetch_bls_data.py`, `app.py`).

The embedding models the JSON payload of the upstream BLS API response,
the row records the scripts build from it, the pandas operations the
scripts apply (date coercion, boolean-mask filtering, `concat`,
`drop_duplicates` on the `(series_id, date)` key, `sort_values`), and the
control flow of the two entry points.  Pandas exceptions (`KeyError` on a
missing column, `ValueError` from `pd.to_datetime` on an out-of-range
month) are modelled with `Except`.
-/

/-- A calendar date as the scripts use it: every produced date string is
`f"{year}-{month}-01"`, so the day is always 1 and a date is a
(year, month) pair.  The month field is unconstrained here; validity
(1..12) is enforced by the model of `pd.to_datetime`. -/
structure Date where
  year : Nat
  month : Nat
deriving DecidableEq, Repr

/-- `a <= b` on dates, lexicographic on (year, month): the order pandas
`Timestamp` comparison induces on first-of-month dates. -/
def dateLe (a b : Date) : Bool :=
  decide (a.year < b.year) || (decide (a.year = b.year) && decide (a.month ≤ b.month))

/-- `a < b` on dates, lexicographic on (year, month). -/
def dateLt (a b : Date) : Bool :=
  decide (a.year < b.year) || (decide (a.year = b.year) && decide (a.month < b.month))

/-- An observation record: one row of the dataset
(`{"series_id": sid, "date": ..., "value": ...}`).  The `float` value of a
row is modelled as an exact rational; no claim concerns rounding. -/
structure Record where
  series_id : String
  date : Date
  value : Rat
deriving DecidableEq, Repr

/-- The `(series_id, date)` key used by
`drop_duplicates(subset=["series_id", "date"])`. -/
def keyOf (r : Record) : String × Date := (r.series_id, r.date)

/-- One entry of a series' `"data"` array in the API response:
`item["period"]` (e.g. `"M01"`..`"M13"`), `item["year"]`, and
`item["value"]` (already coerced to a number, as `float(item["value"])`
does on the value strings the scripts receive). -/
structure RawItem where
  period : String
  year : Nat
  value : Rat
deriving DecidableEq, Repr

/-- One element of `data["Results"]["series"]`: a `seriesID` and its
`data` array. -/
structure RawSeries where
  seriesID : String
  data : List RawItem
deriving DecidableEq, Repr

/-- A decoded JSON response body.  `series = none` models a body in which
`Results` is absent or carries no `series` key (both make
`data["Results"]["series"]` fail and make the `results.get("series")`
defensive path in `fetch_latest` see a missing value); `series = some l`
models a present `series` array `l`. -/
structure Response where
  status : String
  series : Option (List RawSeries)
deriving DecidableEq, Repr

/-- Exceptions the scripts can raise past the HTTP layer:
`keyError` models a pandas/dict `KeyError` (missing `date` column of an
empty `DataFrame`, or a missing `Results`/`series` key), `valueError`
models a `ValueError` from `pd.to_datetime` on an invalid date string. -/
inductive FetchError where
  | keyError
  | valueError
deriving DecidableEq, Repr

/-- A raw row as appended inside the parse loops, before the
`pd.to_datetime` coercion of the `date` column: the date is still the
pair (`item["year"]`, `period[1:]`) glued into `f"{year}-{month}-01"`. -/
structure RawRecord where
  series_id : String
  year : Nat
  monthStr : List Char
  value : Rat
deriving DecidableEq, Repr

/-- `period.startswith("M")`: the period code's first character is `'M'`. -/
def startsWithM (s : String) : Bool :=
  match s.data with
  | c :: _ => decide (c = 'M')
  | [] => false

/-- `period[1:]` as a character list: the period code with its first
character removed. -/
def dropHead (s : String) : List Char :=
  s.data.drop 1

/-- The parse loop shared verbatim by `fetch_latest`
(`fetch_bls_data.py` lines 53-71) and `fetch_series`
(`build_dataset.py` lines 35-47): for each series and each item, skip the
item unless `item["period"].startswith("M")`, otherwise emit a row with
the series id, the year, the month string `period[1:]`, and the value. -/
def parseRows (seriesList : List RawSeries) : List RawRecord :=
  seriesList.flatMap fun s =>
    (s.data.filter fun item => startsWithM item.period).map fun item =>
      { series_id := s.seriesID
        year := item.year
        monthStr := dropHead item.period
        value := item.value }

/-- Decimal reading of a digit string, `none` at the first non-digit. -/
def parseDigitsAux : List Char → Nat → Option Nat
  | [], acc => some acc
  | c :: cs, acc =>
    if c.isDigit then parseDigitsAux cs (10 * acc + (c.toNat - 48)) else none

/-- `pd.to_datetime` applied to the string `f"{year}-{monthStr}-01"`:
succeeds exactly when the month component is a (non-empty) digit string
denoting a number between 1 and 12, otherwise raises
(e.g. `"2024-13-01"` is rejected). -/
def toDatetime (year : Nat) (monthStr : List Char) : Option Date :=
  match monthStr with
  | [] => none
  | _ =>
    match parseDigitsAux monthStr 0 with
    | some m => if 1 ≤ m ∧ m ≤ 12 then some ⟨year, m⟩ else none
    | none => none

/-- Coercion of one raw row's date column. -/
def coerceRow (r : RawRecord) : Except FetchError Record :=
  match toDatetime r.year r.monthStr with
  | some d => .ok { series_id := r.series_id, date := d, value := r.value }
  | none => .error .valueError

/-- `df["date"] = pd.to_datetime(df["date"])` over a non-empty row list:
coerces every date, raising `ValueError` at the first invalid one. -/
def coerceDates (rows : List RawRecord) : Except FetchError (List Record) :=
  rows.mapM coerceRow

/-- `fetch_latest` of `scripts/fetch_bls_data.py` (lines 37-75), from the
decoded response body on: if the top-level `status` is not
`"REQUEST_SUCCEEDED"`, or the `series` collection is absent or empty,
return an empty `DataFrame` that does carry the three columns; otherwise
run the parse loop, build `pd.DataFrame(rows)` — which, when `rows` is
empty, has *no* columns, so the `df["date"]` coercion raises `KeyError` —
and coerce the `date` column. -/
def fetch_latest (resp : Response) : Except FetchError (List Record) :=
  if resp.status ≠ "REQUEST_SUCCEEDED" then
    .ok []
  else
    match resp.series with
    | none => .ok []
    | some seriesList =>
      if seriesList.isEmpty then
        .ok []
      else
        let rows := parseRows seriesList
        if rows.isEmpty then
          .error .keyError
        else
          coerceDates rows

/-- `fetch_series` of `scripts/build_dataset.py` (lines 31-51), from the
decoded response body on: no defensive checks — `data["Results"]["series"]`
raises `KeyError` when `Results` or `series` is missing; then the same
parse loop, the same `pd.DataFrame(rows)` (again without columns when
`rows` is empty, so `df["date"]` raises `KeyError`), and the same date
coercion. -/
def fetch_series (resp : Response) : Except FetchError (List Record) :=
  match resp.series with
  | none => .error .keyError
  | some seriesList =>
    let rows := parseRows seriesList
    if rows.isEmpty then
      .error .keyError
    else
      coerceDates rows

/-- Code-point lexicographic order on character lists: the order Python
puts on strings, hence the order pandas sorts the `series_id` column
by. -/
def charListLt : List Char → List Char → Bool
  | [], [] => false
  | [], _ :: _ => true
  | _ :: _, [] => false
  | a :: as, b :: bs =>
    decide (a.toNat < b.toNat) || (decide (a.toNat = b.toNat) && charListLt as bs)

/-- Strict code-point order on strings. -/
def strLt (a b : String) : Bool :=
  charListLt a.data b.data

/-- The ordering key of `sort_values(["series_id", "date"])`:
lexicographic on the series-id string and then the date. -/
def recLe (a b : Record) : Bool :=
  strLt a.series_id b.series_id ||
    (decide (a.series_id = b.series_id) && dateLe a.date b.date)

/-- `recLe` as a decidable relation, for use with `List.insertionSort`. -/
def recLeP : Record → Record → Prop :=
  fun a b => recLe a b = true

instance : DecidableRel recLeP :=
  fun a b => inferInstanceAs (Decidable (recLe a b = true))

/-- `df.sort_values(["series_id", "date"])`: a comparison sort by the
(series_id, date) key, ascending. -/
def sort_values (l : List Record) : List Record :=
  l.insertionSort recLeP

/-- The recursion behind `drop_duplicates(subset=["series_id", "date"])`
with the default `keep="first"`: walk the rows in order, keeping a row
exactly when its key has not been seen before. -/
def dedupFirst : List Record → List (String × Date) → List Record
  | [], _ => []
  | r :: rs, seen =>
    if keyOf r ∈ seen then
      dedupFirst rs seen
    else
      r :: dedupFirst rs (keyOf r :: seen)

/-- `df.drop_duplicates(subset=["series_id", "date"])`: keep the first
row of each (series_id, date) key. -/
def drop_duplicates (l : List Record) : List Record :=
  dedupFirst l []

/-- `df["date"].max()`: the maximum date over the rows of a non-empty
dataset, as a fold starting from `⟨0, 0⟩`, the least element of `dateLe`
(the script never reaches this computation with an empty dataset on the
paths the claims concern). -/
def maxDate (l : List Record) : Date :=
  l.foldr (fun r acc => if dateLe acc r.date then r.date else acc) ⟨0, 0⟩

/-- The fixed `SERIES_IDS` list, identical in both scripts. -/
def SERIES_IDS : List String :=
  ["CES0000000001", "LNS14000000", "LNS11300000", "JTS000000000000000JOL"]

/-- The request payload posted to the BLS endpoint: series ids plus an
inclusive year range. -/
structure Request where
  seriesIds : List String
  startYear : Nat
  endYear : Nat
deriving DecidableEq, Repr

/-- What `main` of `fetch_bls_data.py` can raise:
`missingBaseline` is the `FileNotFoundError` of lines 79-82, and
`fetchError` wraps an exception propagating out of `fetch_latest`. -/
inductive MainError where
  | missingBaseline
  | fetchError (e : FetchError)
deriving DecidableEq, Repr

/-- Result of a completed `fetch_bls_data.py` run: the dataset persisted
at `DATA_PATH` when the run ends, and whether `to_csv` was executed
(`false` on the "no new data" early return, which leaves the file
untouched). -/
structure UpdateOutcome where
  dataset : List Record
  wrote : Bool
deriving DecidableEq, Repr

/-- `main` of `scripts/fetch_bls_data.py` (lines 78-113).  The persisted
file is modelled as `persisted : Option (List Record)` (`none` when
`DATA_PATH` does not exist), the HTTP layer as an oracle from request
payloads to decoded response bodies, and `datetime.now().year` as
`currentYear`.  The first component of the result is the list of requests
issued to the upstream API, in order. -/
def fetchMain (persisted : Option (List Record)) (currentYear : Nat)
    (api : Request → Response) : List Request × Except MainError UpdateOutcome :=
  match persisted with
  | none => ([], .error .missingBaseline)
  | some df_existing =>
    let last_date := maxDate df_existing
    let req : Request := ⟨SERIES_IDS, last_date.year, currentYear⟩
    match fetch_latest (api req) with
    | .error e => ([req], .error (.fetchError e))
    | .ok fetched =>
      let df_new := fetched.filter fun r => dateLt last_date r.date
      if df_new.isEmpty then
        ([req], .ok ⟨df_existing, false⟩)
      else
        ([req], .ok ⟨sort_values (drop_duplicates (df_existing ++ df_new)), true⟩)

/-- `main` of `scripts/build_dataset.py` (lines 53-59): one request for
the fixed series over 2015-2025, then sort and persist.  The first
component again records the requests issued. -/
def buildMain (api : Request → Response) :
    List Request × Except FetchError (List Record) :=
  let req : Request := ⟨SERIES_IDS, 2015, 2025⟩
  match fetch_series (api req) with
  | .error e => ([req], .error e)
  | .ok df => ([req], .ok (sort_values df))

/-- The windowed chart view of `app.py` `main` (lines 165-167):
`df_plot = df[df["series_id"].isin(selected_ids)]`, then
`cutoff = df_plot["date"].max() - pd.DateOffset(months=months_back)`, and
`df_plot = df_plot[df_plot["date"] >= cutoff]`. -/
def dateSubMonths (d : Date) (n : Nat) : Date :=
  let total := d.year * 12 + (d.month - 1) - n
  ⟨total / 12, total % 12 + 1⟩

/-- See `dateSubMonths`; this is the three-line windowing itself. -/
def windowedView (df : List Record) (selected_ids : List String)
    (months_back : Nat) : List Record :=
  let df_plot := df.filter fun r => selected_ids.contains r.series_id
  let cutoff := dateSubMonths (maxDate df_plot) months_back
  df_plot.filter fun r => dateLe cutoff r.date

/-! ### Concrete fixtures used by witnesses and counterexamples -/

/-- A response item with the given period code, for the year 2024. -/
def mkItem (p : String) : RawItem := ⟨p, 2024, 1⟩

/-- A successful response carrying the twelve monthly period codes
together with the annual-average pseudo-period `M13`. -/
def m13resp : Response :=
  ⟨"REQUEST_SUCCEEDED", some [⟨"CES0000000001",
    [mkItem "M01", mkItem "M02", mkItem "M03", mkItem "M04", mkItem "M05",
     mkItem "M06", mkItem "M07", mkItem "M08", mkItem "M09", mkItem "M10",
     mkItem "M11", mkItem "M12", mkItem "M13"]⟩]⟩

/-- The same response without the `M13` entry but with a quarterly-style
code `Q01` that the prefix filter does discard. -/
def monthsResp : Response :=
  ⟨"REQUEST_SUCCEEDED", some [⟨"CES0000000001",
    [mkItem "M01", mkItem "M02", mkItem "M03", mkItem "M04", mkItem "M05",
     mkItem "M06", mkItem "M07", mkItem "M08", mkItem "M09", mkItem "M10",
     mkItem "M11", mkItem "M12", mkItem "Q01"]⟩]⟩

/-- The twelve records `monthsResp` should parse to: one per month of
2024, dated the first of the month. -/
def twelveRecords : List Record :=
  (List.range 12).map fun i => ⟨"CES0000000001", ⟨2024, i + 1⟩, 1⟩

/-- A success-status response whose non-empty series data holds only an
annual (non-`M`) period, so the parse loop keeps zero rows. -/
def annualOnlyResp : Response :=
  ⟨"REQUEST_SUCCEEDED", some [⟨"LNS14000000", [⟨"A01", 2024, 5⟩]⟩]⟩

/-- A failure response: unexpected status, no `Results`/`series`. -/
def failedResp : Response :=
  ⟨"REQUEST_NOT_PROCESSED", none⟩

/-- An existing one-row dataset whose last date is 2024-03. -/
def existingA : List Record := [⟨"A", ⟨2024, 3⟩, 1⟩]

/-- A response whose records all predate `existingA`'s last date. -/
def staleResp : Response :=
  ⟨"REQUEST_SUCCEEDED", some [⟨"A",
    [⟨"M01", 2024, 5⟩, ⟨"M02", 2024, 6⟩, ⟨"M03", 2024, 1⟩]⟩]⟩

/-- A two-series existing dataset whose last date is 2024-02. -/
def existingAB : List Record :=
  [⟨"A", ⟨2024, 1⟩, 10⟩, ⟨"B", ⟨2024, 2⟩, 20⟩]

/-- A response overlapping `existingAB` (a stale January row with a
conflicting value) and extending it with March rows for both series. -/
def freshResp : Response :=
  ⟨"REQUEST_SUCCEEDED", some
    [⟨"A", [⟨"M03", 2024, 11⟩, ⟨"M01", 2024, 99⟩]⟩,
     ⟨"B", [⟨"M03", 2024, 21⟩]⟩]⟩

/-- The record list `fetch_latest` parses out of `freshResp`. -/
def fetchedAB : List Record :=
  [⟨"A", ⟨2024, 3⟩, 11⟩, ⟨"A", ⟨2024, 1⟩, 99⟩, ⟨"B", ⟨2024, 3⟩, 21⟩]

/-- The merged dataset the incremental update produces from `existingAB`
and `freshResp`. -/
def mergedAB : List Record :=
  [⟨"A", ⟨2024, 1⟩, 10⟩, ⟨"A", ⟨2024, 3⟩, 11⟩,
   ⟨"B", ⟨2024, 2⟩, 20⟩, ⟨"B", ⟨2024, 3⟩, 21⟩]

/-- A dataset with one row per month from 2015-01 through 2025-06 for a
single series, as in the windowing property. -/
def sampleDf : List Record :=
  (List.range 126).map fun i => ⟨"CES0000000001", ⟨2015 + i / 12, i % 12 + 1⟩, 1⟩

/-! ### Order-theoretic helper lemmas -/

theorem dateLe_refl (a : Date) : dateLe a a = true := by
  simp [dateLe]

theorem dateLe_total (a b : Date) : dateLe a b = true ∨ dateLe b a = true := by
  simp only [dateLe, Bool.or_eq_true, Bool.and_eq_true, decide_eq_true_eq]
  omega

theorem dateLe_trans {a b c : Date} (h1 : dateLe a b = true)
    (h2 : dateLe b c = true) : dateLe a c = true := by
  simp only [dateLe, Bool.or_eq_true, Bool.and_eq_true, decide_eq_true_eq] at h1 h2 ⊢
  omega

theorem dateLt_le {a b : Date} (h : dateLt a b = true) : dateLe a b = true := by
  simp only [dateLt, dateLe, Bool.or_eq_true, Bool.and_eq_true, decide_eq_true_eq] at h ⊢
  omega

theorem charListLt_trans (a : List Char) :
    ∀ b c, charListLt a b = true → charListLt b c = true → charListLt a c = true := by
  induction a with
  | nil =>
    intro b c h1 h2
    cases b <;> cases c <;> simp_all [charListLt]
  | cons x xs ih =>
    intro b c h1 h2
    cases b with
    | nil => simp [charListLt] at h1
    | cons y ys =>
      cases c with
      | nil => simp [charListLt] at h2
      | cons z zs =>
        simp only [charListLt, Bool.or_eq_true, Bool.and_eq_true,
          decide_eq_true_eq] at h1 h2 ⊢
        rcases h1 with h1 | ⟨he1, h1⟩ <;> rcases h2 with h2 | ⟨he2, h2⟩
        · left; omega
        · left; omega
        · left; omega
        · right; exact ⟨by omega, ih ys zs h1 h2⟩

theorem charListLt_trichotomy (a : List Char) :
    ∀ b, charListLt a b = true ∨ a = b ∨ charListLt b a = true := by
  induction a with
  | nil =>
    intro b
    cases b <;> simp [charListLt]
  | cons x xs ih =>
    intro b
    cases b with
    | nil => right; right; simp [charListLt]
    | cons y ys =>
      simp only [charListLt, Bool.or_eq_true, Bool.and_eq_true, decide_eq_true_eq]
      rcases Nat.lt_trichotomy x.toNat y.toNat with h | h | h
      · left; left; exact h
      · have hxy : x = y := Char.eq_of_val_eq (UInt32.toNat.inj h)
        rcases ih ys with h2 | h2 | h2
        · left; right; exact ⟨h, h2⟩
        · right; left; rw [hxy, h2]
        · right; right; right; exact ⟨h.symm, h2⟩
      · right; right; left; exact h

theorem strLt_trichotomy (a b : String) :
    strLt a b = true ∨ a = b ∨ strLt b a = true := by
  rcases charListLt_trichotomy a.data b.data with h | h | h
  · left; exact h
  · right; left
    cases a; cases b; exact congrArg String.mk h
  · right; right; exact h

theorem recLe_total (a b : Record) : recLe a b = true ∨ recLe b a = true := by
  simp only [recLe, Bool.or_eq_true, Bool.and_eq_true, decide_eq_true_eq]
  rcases strLt_trichotomy a.series_id b.series_id with h | h | h
  · left; left; exact h
  · rcases dateLe_total a.date b.date with h2 | h2
    · left; right; exact ⟨h, h2⟩
    · right; right; exact ⟨h.symm, h2⟩
  · right; left; exact h

theorem recLe_trans {a b c : Record} (h1 : recLe a b = true)
    (h2 : recLe b c = true) : recLe a c = true := by
  simp only [recLe, strLt, Bool.or_eq_true, Bool.and_eq_true,
    decide_eq_true_eq] at h1 h2 ⊢
  rcases h1 with h1 | ⟨he1, hd1⟩ <;> rcases h2 with h2 | ⟨he2, hd2⟩
  · left; exact charListLt_trans _ _ _ h1 h2
  · left; rw [← he2]; exact h1
  · left; rw [he1]; exact h2
  · right; exact ⟨he1.trans he2, dateLe_trans hd1 hd2⟩

instance : IsTotal Record recLeP := ⟨recLe_total⟩

instance : IsTrans Record recLeP := ⟨fun _ _ _ h1 h2 => recLe_trans h1 h2⟩

theorem dateLe_maxDate {l : List Record} {r : Record} (h : r ∈ l) :
    dateLe r.date (maxDate l) = true := by
  induction l with
  | nil => cases h
  | cons x xs ih =>
    have hstep : maxDate (x :: xs) =
        if dateLe (maxDate xs) x.date then x.date else maxDate xs := rfl
    rcases List.mem_cons.mp h with rfl | hx
    · rw [hstep]
      split
      · exact dateLe_refl _
      · next hcond =>
        rcases dateLe_total (maxDate xs) r.date with h2 | h2
        · exact absurd h2 hcond
        · exact h2
    · rw [hstep]
      split
      · next hcond => exact dateLe_trans (ih hx) hcond
      · exact ih hx

/-! ### Deduplication and sorting lemmas -/

theorem dedupFirst_sublist :
    ∀ (l : List Record) (seen : List (String × Date)), List.Sublist (dedupFirst l seen) l := by
  intro l
  induction l with
  | nil => intro seen; exact List.Sublist.refl []
  | cons r rs ih =>
    intro seen
    simp only [dedupFirst]
    split
    · exact (ih seen).cons r
    · exact (ih _).cons₂ r

theorem dedupFirst_nodup :
    ∀ (l : List Record) (seen : List (String × Date)),
      ((dedupFirst l seen).map keyOf).Nodup ∧
        ∀ k ∈ (dedupFirst l seen).map keyOf, k ∉ seen := by
  intro l
  induction l with
  | nil => intro seen; simp [dedupFirst]
  | cons r rs ih =>
    intro seen
    simp only [dedupFirst]
    split
    · exact ih seen
    · next hnot =>
      obtain ⟨hn, hs⟩ := ih (keyOf r :: seen)
      refine ⟨?_, ?_⟩
      · simp only [List.map_cons, List.nodup_cons]
        exact ⟨fun hmem => (hs _ hmem) (List.mem_cons_self _ _), hn⟩
      · intro k hk
        simp only [List.map_cons, List.mem_cons] at hk
        rcases hk with rfl | hk
        · exact hnot
        · exact fun hkseen => (hs k hk) (List.mem_cons_of_mem _ hkseen)

theorem dedupFirst_key_cover :
    ∀ (l : List Record) (seen : List (String × Date)) (r : Record), r ∈ l →
      keyOf r ∈ seen ∨ keyOf r ∈ (dedupFirst l seen).map keyOf := by
  intro l
  induction l with
  | nil => intro seen r h; cases h
  | cons x xs ih =>
    intro seen r h
    simp only [dedupFirst]
    rcases List.mem_cons.mp h with rfl | hx
    · split
      · next hin => left; exact hin
      · right; simp [List.map_cons]
    · split
      · exact ih seen r hx
      · rcases ih (keyOf x :: seen) r hx with hseen | hmem
        · rcases List.mem_cons.mp hseen with heq | hseen2
          · right; simp [List.map_cons, heq]
          · left; exact hseen2
        · right
          simp only [List.map_cons, List.mem_cons]
          right; exact hmem

theorem dedupFirst_keep :
    ∀ (l₁ l₂ : List Record) (seen : List (String × Date)) (r : Record),
      (l₁.map keyOf).Nodup → (∀ k ∈ seen, k ∉ l₁.map keyOf) → r ∈ l₁ →
      r ∈ dedupFirst (l₁ ++ l₂) seen := by
  intro l₁
  induction l₁ with
  | nil => intro l₂ seen r _ _ h; cases h
  | cons x xs ih =>
    intro l₂ seen r hnd hdisj hr
    have hxnot : keyOf x ∉ seen := fun hc => hdisj _ hc (by simp)
    simp only [List.cons_append, dedupFirst]
    rw [if_neg hxnot]
    simp only [List.map_cons, List.nodup_cons] at hnd
    rcases List.mem_cons.mp hr with rfl | hx
    · exact List.mem_cons_self _ _
    · refine List.mem_cons_of_mem _ (ih l₂ (keyOf x :: seen) r hnd.2 ?_ hx)
      intro k hk
      rcases List.mem_cons.mp hk with rfl | hk2
      · exact hnd.1
      · exact fun hc => hdisj k hk2 (by simp [hc])

theorem drop_duplicates_nodup (l : List Record) :
    ((drop_duplicates l).map keyOf).Nodup :=
  (dedupFirst_nodup l []).1

theorem drop_duplicates_sublist (l : List Record) : List.Sublist (drop_duplicates l) l :=
  dedupFirst_sublist l []

theorem drop_duplicates_key_cover {l : List Record} {r : Record} (h : r ∈ l) :
    keyOf r ∈ (drop_duplicates l).map keyOf := by
  rcases dedupFirst_key_cover l [] r h with h2 | h2
  · cases h2
  · exact h2

theorem drop_duplicates_keep {l₁ l₂ : List Record} {r : Record}
    (hnd : (l₁.map keyOf).Nodup) (h : r ∈ l₁) : r ∈ drop_duplicates (l₁ ++ l₂) :=
  dedupFirst_keep l₁ l₂ [] r hnd (by simp) h

theorem sort_values_perm (l : List Record) : List.Perm (sort_values l) l :=
  List.perm_insertionSort _ _

theorem sort_values_sorted (l : List Record) : List.Sorted recLeP (sort_values l) :=
  List.sorted_insertionSort _ _

theorem mem_sort_values {l : List Record} {r : Record} :
    r ∈ sort_values l ↔ r ∈ l :=
  List.mem_insertionSort _

/-! ### Dissection of the incremental-update entry point -/

theorem fetchMain_merge_inv {df_existing : List Record} {y : Nat}
    {api : Request → Response} {d : List Record}
    (h : (fetchMain (some df_existing) y api).2 = .ok ⟨d, true⟩) :
    ∃ fetched,
      fetch_latest (api ⟨SERIES_IDS, (maxDate df_existing).year, y⟩) = .ok fetched ∧
      (fetched.filter fun r => dateLt (maxDate df_existing) r.date) ≠ [] ∧
      d = sort_values (drop_duplicates
        (df_existing ++ fetched.filter fun r => dateLt (maxDate df_existing) r.date)) := by
  dsimp only [fetchMain] at h
  split at h
  · simp at h
  · next fetched heq =>
    split at h
    · simp at h
    · next hemp =>
      simp only [Except.ok.injEq, UpdateOutcome.mk.injEq] at h
      exact ⟨fetched, heq, fun hc => hemp (by simp [hc]), h.1.symm⟩

/-! ### Claims -/

/-- C1: the spec (and the code's own "skip annual summary rows" comment)
says the parse step keeps exactly the periods `M` + two-digit month 01-12
and excludes every other code, so that a response with `M01`..`M12` plus
`M13` parses to the twelve monthly records.  The code instead keeps the
`M13` row, because the filter tests only the one-letter `M` prefix, and
the subsequent date coercion of `"2024-13-01"` raises a `ValueError` in
both fetch operations; only codes not starting with `M` (such as `Q01`)
are excluded as claimed, in which case the twelve monthly records come
out dated the first of their month. -/
theorem claim_C1 :
    fetch_latest m13resp = .error FetchError.valueError ∧
    fetch_series m13resp = .error FetchError.valueError ∧
    fetch_latest monthsResp = .ok twelveRecords ∧
    fetch_series monthsResp = .ok twelveRecords := by
  refine ⟨?_, ?_, ?_, ?_⟩ <;> decide

/-- C2, counterexample: on a response whose top-level status is not the
success sentinel and whose series collection is absent, the bootstrap
fetch (`fetch_series` of `build_dataset.py`) throws a `KeyError` instead
of returning an empty result set, because it performs none of the
defensive checks the claim attributes to both operations. -/
theorem claim_C2_counterexample :
    fetch_series failedResp = .error FetchError.keyError := by
  decide

/-- C2, amended: only the incremental update's fetch (`fetch_latest` of
`fetch_bls_data.py`) returns an empty record set without throwing when
the status differs from the success sentinel or the series collection is
absent or empty; the bootstrap fetch has no such handling. -/
theorem claim_C2 (resp : Response)
    (h : resp.status ≠ "REQUEST_SUCCEEDED" ∨ resp.series = none ∨
      resp.series = some []) :
    fetch_latest resp = .ok [] := by
  unfold fetch_latest
  by_cases hs : resp.status = "REQUEST_SUCCEEDED"
  · rw [if_neg (by simp [hs])]
    rcases h with h | h | h
    · exact absurd hs h
    · rw [h]
    · rw [h]; rfl
  · rw [if_pos hs]

/-- C2, witness for the amended claim. -/
theorem claim_C2_witness :
    failedResp.status ≠ "REQUEST_SUCCEEDED" ∧ fetch_latest failedResp = .ok [] :=
  ⟨by decide, claim_C2 failedResp (Or.inl (by decide))⟩

/-- C3: when no persisted dataset exists, the incremental update fails
with the missing-baseline error (`FileNotFoundError`) and issues no
request to the upstream API: the request trace is empty for every
current-year value and every API behaviour. -/
theorem claim_C3 (y : Nat) (api : Request → Response) :
    fetchMain none y api = ([], .error MainError.missingBaseline) :=
  rfl

/-- C9: a well-formed successful response — success status, non-empty
series collection — whose entries yield zero monthly rows after the
period filter makes both fetch operations raise (`pd.DataFrame([])` has
no `date` column, so the coercion raises `KeyError`) instead of returning
an empty result set. -/
theorem claim_C9 :
    annualOnlyResp.status = "REQUEST_SUCCEEDED" ∧
    (∃ sl, annualOnlyResp.series = some sl ∧ sl ≠ []) ∧
    parseRows [⟨"LNS14000000", [⟨"A01", 2024, 5⟩]⟩] = [] ∧
    fetch_latest annualOnlyResp = .error FetchError.keyError ∧
    fetch_series annualOnlyResp = .error FetchError.keyError := by
  exact ⟨rfl, ⟨_, rfl, by decide⟩, by decide, by decide, by decide⟩

/-- C4: if, after parsing and filtering out the records dated at or
before the last existing date, no new records remain, the incremental
update returns with the existing dataset unchanged and without writing —
the no-op path succeeds rather than erroring. -/
theorem claim_C4 (df_existing : List Record) (_hne : df_existing ≠ [])
    (y : Nat) (api : Request → Response) (fetched : List Record)
    (hf : fetch_latest (api ⟨SERIES_IDS, (maxDate df_existing).year, y⟩) =
      .ok fetched)
    (hempty : fetched.filter (fun r => dateLt (maxDate df_existing) r.date) = []) :
    (fetchMain (some df_existing) y api).2 = .ok ⟨df_existing, false⟩ := by
  dsimp only [fetchMain]
  rw [hf]
  dsimp only
  rw [hempty]
  rfl

/-- C4, witness: a one-row dataset and a response whose rows all predate
its last date. -/
theorem claim_C4_witness :
    (fetchMain (some existingA) 2025 fun _ => staleResp).2 =
      .ok ⟨existingA, false⟩ :=
  claim_C4 existingA (by decide) 2025 (fun _ => staleResp)
    [⟨"A", ⟨2024, 1⟩, 5⟩, ⟨"A", ⟨2024, 2⟩, 6⟩, ⟨"A", ⟨2024, 3⟩, 1⟩]
    (by decide) (by decide)

/-- C5: the dataset produced by a successful merge in the incremental
update has no two records with the same (series_id, date) key. -/
theorem claim_C5 (df_existing : List Record) (_hne : df_existing ≠ [])
    (y : Nat) (api : Request → Response) (d : List Record)
    (h : (fetchMain (some df_existing) y api).2 = .ok ⟨d, true⟩) :
    (d.map keyOf).Nodup := by
  obtain ⟨fetched, hf, hnonempty, hd⟩ := fetchMain_merge_inv h
  rw [hd]
  exact ((sort_values_perm _).map keyOf).nodup_iff.mpr (drop_duplicates_nodup _)

/-- C5, witness. -/
theorem claim_C5_witness : (mergedAB.map keyOf).Nodup :=
  claim_C5 existingAB (by decide) 2025 (fun _ => freshResp) mergedAB (by decide)

/-- C6: in the incremental update, `lastDate` bounds every date of the
existing dataset from above, and the merge works on exactly the fetched
records dated strictly after it: every merged record comes from the
existing dataset or is such a fetched record, every such fetched record's
key reaches the merged dataset, and a fetched record dated at or before
`lastDate` that is not already present is discarded. -/
theorem claim_C6 (df_existing : List Record) (_hne : df_existing ≠ [])
    (y : Nat) (api : Request → Response) (fetched d : List Record)
    (hf : fetch_latest (api ⟨SERIES_IDS, (maxDate df_existing).year, y⟩) =
      .ok fetched)
    (h : (fetchMain (some df_existing) y api).2 = .ok ⟨d, true⟩) :
    (∀ r ∈ df_existing, dateLe r.date (maxDate df_existing) = true) ∧
    (∀ r ∈ d, r ∈ df_existing ∨
      (r ∈ fetched ∧ dateLt (maxDate df_existing) r.date = true)) ∧
    (∀ r ∈ fetched, dateLt (maxDate df_existing) r.date = true →
      keyOf r ∈ d.map keyOf) ∧
    (∀ r ∈ fetched, dateLt (maxDate df_existing) r.date = false →
      r ∉ df_existing → r ∉ d) := by
  obtain ⟨fetched₀, hf₀, hnonempty, hd⟩ := fetchMain_merge_inv h
  rw [hf] at hf₀
  injection hf₀ with hfe
  subst hfe
  refine ⟨fun r hr => dateLe_maxDate hr, ?_, ?_, ?_⟩
  · intro r hr
    rw [hd] at hr
    have hr2 := (drop_duplicates_sublist _).mem (mem_sort_values.mp hr)
    rcases List.mem_append.mp hr2 with h2 | h2
    · exact Or.inl h2
    · exact Or.inr (List.mem_filter.mp h2)
  · intro r hr hlt
    rw [hd]
    have hmem : r ∈ df_existing ++
        fetched.filter fun x => dateLt (maxDate df_existing) x.date :=
      List.mem_append.mpr (Or.inr (List.mem_filter.mpr ⟨hr, hlt⟩))
    have hkey := drop_duplicates_key_cover hmem
    exact (((sort_values_perm _).map keyOf).mem_iff).mpr hkey
  · intro r hr hnlt hnex hrd
    rw [hd] at hrd
    have hr2 := (drop_duplicates_sublist _).mem (mem_sort_values.mp hrd)
    rcases List.mem_append.mp hr2 with h2 | h2
    · exact hnex h2
    · rw [(List.mem_filter.mp h2).2] at hnlt
      cases hnlt

/-- C6, witness: instantiated on `existingAB`/`freshResp` — the existing
January date is bounded by `lastDate`, the fresh March record's key
reaches the merged dataset, and the stale re-returned January record
(with its conflicting value) is discarded. -/
theorem claim_C6_witness :
    dateLe (⟨2024, 1⟩ : Date) (maxDate existingAB) = true ∧
    keyOf (⟨"A", ⟨2024, 3⟩, 11⟩ : Record) ∈ mergedAB.map keyOf ∧
    (⟨"A", ⟨2024, 1⟩, 99⟩ : Record) ∉ mergedAB := by
  obtain ⟨h1, h2, h3, h4⟩ := claim_C6 existingAB (by decide) 2025
    (fun _ => freshResp) fetchedAB mergedAB (by decide) (by decide)
  exact ⟨h1 ⟨"A", ⟨2024, 1⟩, 10⟩ (by decide),
    h3 ⟨"A", ⟨2024, 3⟩, 11⟩ (by decide) (by decide),
    h4 ⟨"A", ⟨2024, 1⟩, 99⟩ (by decide) (by decide) (by decide)⟩

/-- C7: the dataset written by bootstrap and the dataset produced by a
successful merge in the incremental update are sorted ascending by the
(series_id, date) key. -/
theorem claim_C7 :
    (∀ (api : Request → Response) (d : List Record),
        (buildMain api).2 = .ok d → List.Sorted recLeP d) ∧
    (∀ (df_existing : List Record) (y : Nat) (api : Request → Response)
        (d : List Record), df_existing ≠ [] →
        (fetchMain (some df_existing) y api).2 = .ok ⟨d, true⟩ →
        List.Sorted recLeP d) := by
  constructor
  · intro api d h
    dsimp only [buildMain] at h
    split at h
    · simp at h
    · simp only [Except.ok.injEq] at h
      rw [← h]
      exact sort_values_sorted _
  · intro df_existing y api d hne h
    obtain ⟨fetched, hf, hnonempty, hd⟩ := fetchMain_merge_inv h
    rw [hd]
    exact sort_values_sorted _

/-- C7, witness: the bootstrap output on `monthsResp` and the merge
output on `existingAB`/`freshResp` are both sorted. -/
theorem claim_C7_witness :
    List.Sorted recLeP twelveRecords ∧ List.Sorted recLeP mergedAB :=
  ⟨claim_C7.1 (fun _ => monthsResp) twelveRecords (by decide),
   claim_C7.2 existingAB 2025 (fun _ => freshResp) mergedAB (by decide) (by decide)⟩

set_option maxRecDepth 100000 in
/-- C8: the windowed chart view keeps exactly the series-filtered rows
dated at or after the cutoff, where the cutoff is the maximum date among
the filtered rows minus `months_back` months; with `months_back = 60` on
a dataset spanning 2015-01 through 2025-06 exactly the rows dated
2020-06-01 or later are kept (boundary month included). -/
theorem claim_C8 :
    (∀ (df : List Record) (selected_ids : List String) (months_back : Nat)
        (r : Record),
        r ∈ windowedView df selected_ids months_back ↔
          r ∈ df ∧ r.series_id ∈ selected_ids ∧
            dateLe (dateSubMonths
              (maxDate (df.filter fun x => selected_ids.contains x.series_id))
              months_back) r.date = true) ∧
    windowedView sampleDf ["CES0000000001"] 60 =
      sampleDf.filter fun r => dateLe ⟨2020, 6⟩ r.date := by
  constructor
  · intro df selected_ids months_back r
    simp only [windowedView, List.mem_filter, and_assoc]
    constructor
    · rintro ⟨hdf, hsel, hcut⟩
      exact ⟨hdf, by simpa using hsel, hcut⟩
    · rintro ⟨hdf, hsel, hcut⟩
      exact ⟨hdf, by simpa using hsel, hcut⟩
  · decide

set_option maxRecDepth 100000 in
/-- C8, witness: the boundary month 2020-06 itself is kept by the
60-month window on the 2015-01..2025-06 dataset. -/
theorem claim_C8_witness :
    (⟨"CES0000000001", ⟨2020, 6⟩, 1⟩ : Record) ∈
      windowedView sampleDf ["CES0000000001"] 60 :=
  (claim_C8.1 sampleDf ["CES0000000001"] 60 _).mpr
    ⟨by decide, by decide, by decide⟩

/-- C10: every record of the existing dataset survives a successful merge
untouched — it is a member of the merged dataset, and any merged record
sharing its (series_id, date) key is that record itself, so no existing
key is lost and no existing value is replaced by a fetched one. -/
theorem claim_C10 (df_existing : List Record) (_hne : df_existing ≠ [])
    (hkeys : (df_existing.map keyOf).Nodup) (y : Nat)
    (api : Request → Response) (d : List Record)
    (h : (fetchMain (some df_existing) y api).2 = .ok ⟨d, true⟩) :
    ∀ r ∈ df_existing, r ∈ d ∧ ∀ x ∈ d, keyOf x = keyOf r → x = r := by
  obtain ⟨fetched, hf, hnonempty, hd⟩ := fetchMain_merge_inv h
  have hdnodup : (d.map keyOf).Nodup := by
    rw [hd]
    exact ((sort_values_perm _).map keyOf).nodup_iff.mpr (drop_duplicates_nodup _)
  intro r hr
  have hrd : r ∈ d := by
    rw [hd]
    exact mem_sort_values.mpr (drop_duplicates_keep hkeys hr)
  exact ⟨hrd, fun x hx hkey => List.inj_on_of_nodup_map hdnodup hx hrd hkey⟩

/-- C10, witness: the existing January row of series A keeps its value
even though the response re-returned that month with another value. -/
theorem claim_C10_witness :
    (⟨"A", ⟨2024, 1⟩, 10⟩ : Record) ∈ mergedAB :=
  (claim_C10 existingAB (by decide) (by decide) 2025 (fun _ => freshResp)
    mergedAB (by decide) ⟨"A", ⟨2024, 1⟩, 10⟩ (by decide)).1

/-- C3, witness. -/
theorem claim_C3_witness :
    fetchMain none 2025 (fun _ => failedResp) =
      ([], .error MainError.missingBaseline) :=
  claim_C3 2025 fun _ => failedResp
